import Mathlib

/-!
Shallow embedding of the Transmission RPC adapter in
src/src/transmission_webui.cpp, together with theorems settling the
frozen claims about it.  Machine integers are modelled as Int (the
adapter performs no overflowing arithmetic on the paths covered by the
claims); the std::set of torrent ids is modelled as a list used only
through membership; the growable response buffer is modelled as the
String it holds when the handler returns.  All literal braces inside
string literals are written with the escapes \x7b and \x7d.
-/

set_option linter.unusedVariables false

/-- Token types of the jsmn JSON scanner (JSMN_OBJECT, JSMN_ARRAY,
JSMN_STRING, JSMN_PRIMITIVE). -/
inductive JType where
  | obj
  | arr
  | str
  | prim
deriving DecidableEq

/-- Parsed JSON subtree, standing for a jsmn token together with its
children.  A string token carries its content; a primitive token
carries its raw source text (numbers and the literals true, false,
null). -/
inductive Jv where
  | str (s : String)
  | prim (s : String)
  | arr (items : List Jv)
  | obj (members : List (String × Jv))

/-- Members of a JSON object: key/value pairs in document order. -/
abbrev Obj := List (String × Jv)

/-- Token type of a value, as jsmn reports it. -/
def jtype : Jv → JType
  | Jv.str _ => JType.str
  | Jv.prim _ => JType.prim
  | Jv.arr _ => JType.arr
  | Jv.obj _ => JType.obj

/-- Raw source text of a token as the C code sees it after
null-terminating the token end in the request buffer.  For string and
primitive tokens this is the token content.  For array and object
tokens the raw text starts with the opening bracket; the adapter only
ever passes such text to atoi (which yields 0 on it) or compares it to
the literals true, required and preferred (which never match), so the
opening bracket alone is a faithful stand-in. -/
def rawText : Jv → String
  | Jv.str s => s
  | Jv.prim s => s
  | Jv.arr _ => "["
  | Jv.obj _ => "\x7b"

/-- Value of a decimal digit run, most significant first. -/
def digitsVal : List Char → Nat → Nat
  | [], acc => acc
  | c :: cs, acc =>
    if c.isDigit then digitsVal cs (acc * 10 + (c.toNat - 48)) else acc

/-- Modelled from the spec: the C library atoi used throughout
transmission_webui.cpp (json_util.hpp and the C runtime are not under
src/).  Leading whitespace is skipped, an optional sign is read, then
leading decimal digits; a string with no leading digits yields 0. -/
def atoi (s : String) : Int :=
  let cs := s.toList.dropWhile (fun c => c = ' ' ∨ c = '\t' ∨ c = '\n' ∨ c = '\r')
  match cs with
  | '-' :: rest => -(digitsVal rest 0 : Int)
  | '+' :: rest => (digitsVal rest 0 : Int)
  | _ => (digitsVal cs 0 : Int)

/-- Modelled from the spec: find_key of json_util.hpp (declared only;
the definition is not under src/).  Per spec section 4.1 it searches
the immediate children of an object for a string child whose content
equals the key and returns the following value token if its type
matches the expected type, else none. -/
def find_key (members : Obj) (key : String) (ty : JType) : Option Jv :=
  match members.find? (fun kv => kv.1 = key) with
  | some kv => if jtype kv.2 = ty then some kv.2 else none
  | none => none

/-- Lift of find_key to a possibly missing arguments object: the C
accessors return NULL when called with a NULL root. -/
def find_keyO (args : Option Obj) (key : String) (ty : JType) : Option Jv :=
  match args with
  | none => none
  | some o => find_key o key ty

/-- Modelled from the spec: find_string of json_util.hpp; yields the
content of the string value for the key, or the empty string. -/
def find_string (args : Option Obj) (key : String) : String :=
  match find_keyO args key JType.str with
  | some (Jv.str s) => s
  | _ => ""

/-- Modelled from the spec: find_string with its found? out-parameter
(used for the location key of torrent-set). -/
def find_stringF (args : Option Obj) (key : String) : String × Bool :=
  match find_keyO args key JType.str with
  | some (Jv.str s) => (s, true)
  | _ => ("", false)

/-- Modelled from the spec: find_int of json_util.hpp; parses the
primitive value for the key, or yields 0 when absent. -/
def find_int (args : Option Obj) (key : String) : Int :=
  match find_keyO args key JType.prim with
  | some (Jv.prim s) => atoi s
  | _ => 0

/-- Modelled from the spec: find_int with its found? out-parameter. -/
def find_intF (args : Option Obj) (key : String) : Int × Bool :=
  match find_keyO args key JType.prim with
  | some (Jv.prim s) => (atoi s, true)
  | _ => (0, false)

/-- Modelled from the spec: find_bool of json_util.hpp; accepts the
standard JSON literal true, anything else (including absence) reads as
false. -/
def find_bool (args : Option Obj) (key : String) : Bool :=
  match find_keyO args key JType.prim with
  | some (Jv.prim s) => s = "true"
  | _ => false

/-- Helper to_bool of transmission_webui.cpp line 220: renders a C++
bool as a JSON literal. -/
def to_bool (b : Bool) : String := if b then "true" else "false"

/-- Rendering of to_bool applied to a C++ int (implicit int-to-bool
conversion: nonzero is true), as used for the wanted field. -/
def to_bool_int (i : Int) : String := to_bool (decide (i ≠ 0))

/-- Modelled from the spec: escape_json of escape_json.hpp (not under
src/); JSON-escapes quotes and backslashes in emitted strings.  The
claims never depend on the escaped text itself. -/
def escape_json (s : String) : String :=
  String.mk (s.toList.foldr
    (fun c acc =>
      if c = '"' then '\\' :: '"' :: acc
      else if c = '\\' then '\\' :: '\\' :: acc
      else c :: acc) [])

/-- Buffer contents produced by return_failure (transmission_webui.cpp
line 82): the buffer is cleared and replaced by exactly one failure
envelope carrying the message and the request tag. -/
def failure_envelope (msg : String) (tag : Int) : String :=
  "\x7b \"result\": \"" ++ msg ++ "\", \"tag\": " ++ toString tag ++ "\x7d"

/-- Leading text of every success envelope, as named by the spec
property P1. -/
def ok_start : String := "\x7b \"result\": \"success\""

/-- String s begins with the text p. -/
def beginsWith (p s : String) : Prop := ∃ rest, s = p ++ rest

/-- Comma-separated join used to model the count-based comma skipping
of the field encoder: the first element carries no separator, each
following element is preceded by a comma and a space. -/
def commaJoin (xs : List String) : String := String.intercalate (", ") xs

/- ===================== engine-side data model ===================== -/

/-- States of libtorrent torrent_status::state_t that the adapter
inspects.  The deprecated queued_for_checking stands in for any state
outside the cases handled by torrent_tr_status. -/
inductive TorrentState where
  | queued_for_checking
  | checking_files
  | downloading_metadata
  | downloading
  | finished
  | seeding
  | allocating
  | checking_resume_data
deriving DecidableEq

/-- One torrent of the engine: the fields of torrent_status and of the
torrent_handle that transmission_webui.cpp reads or writes.  Engine
data the adapter never touches is omitted. -/
structure Torrent where
  id : Nat
  name : String
  save_path : String
  info_hash_hex : String
  paused : Bool
  auto_managed : Bool
  state : TorrentState
  download_payload_rate : Int
  total_wanted : Int
  total_wanted_done : Int
  download_limit : Int
  upload_limit : Int
  max_connections : Int
  all_time_download : Int
  all_time_upload : Int
  num_pieces : Int
  num_peers : Int
  queue_position : Int
  download_rate : Int
  upload_rate : Int
  added_time : Int
  completed_time : Int
  active_time : Int
  finished_time : Int
  total_done : Int
  is_finished : Bool
  file_priorities : List Int
  trackers : List String

/- Identifiers of the libtorrent settings_pack enumerators the adapter
passes to allow_set_settings.  The concrete numeric values are the
black-box engine enumeration; only their identity matters, and -1 is
the adapter-only marker from the source. -/
namespace settings_pack

def cache_size : Int := 1
def active_downloads : Int := 2
def active_seeds : Int := 3
def download_rate_limit : Int := 4
def upload_rate_limit : Int := 5
def connections_limit : Int := 6
def enable_outgoing_utp : Int := 7
def enable_incoming_utp : Int := 8

end settings_pack

/-- Typed engine settings read and written through settings_pack. -/
structure SettingsPack where
  cache_size : Int
  active_downloads : Int
  active_seeds : Int
  download_rate_limit : Int
  upload_rate_limit : Int
  connections_limit : Int
  enable_incoming_utp : Bool
  enable_outgoing_utp : Bool
  user_agent : String

/-- Encryption policy values of libtorrent pe_settings. -/
inductive EncPolicy where
  | forced
  | enabled
  | disabled
deriving DecidableEq

/-- Encryption level values of libtorrent pe_settings. -/
inductive EncLevel where
  | plaintext
  | rc4
  | both
deriving DecidableEq

/-- Engine encryption settings (pe_settings). -/
structure PeSettings where
  in_enc_policy : EncPolicy
  out_enc_policy : EncPolicy
  allowed_enc_level : EncLevel
  prefer_rc4 : Bool
deriving DecidableEq

/-- Session counters read by session-stats (session_status). -/
structure SessionCounters where
  num_torrents : Int
  num_paused_torrents : Int
  payload_download_rate : Int
  payload_upload_rate : Int
  total_payload_upload : Int
  total_payload_download : Int

/-- The engine session as the adapter observes it. -/
structure Engine where
  torrents : List Torrent
  settings : SettingsPack
  pe : PeSettings
  listen_port : Int
  counters : SessionCounters
  next_id : Nat

/-- Parsed metadata of a .torrent file (torrent_info), reduced to the
fields the success envelope of torrent-add reports. -/
structure TorrentInfoE where
  name : String
  info_hash_hex : String

/-- The add_torrent_params template (m_params_model) and per-request
copies of it: save path, the paused and auto-managed flags, and the
payload source (URL or parsed metadata). -/
structure AddTorrentParams where
  save_path : String
  flag_paused : Bool
  flag_auto_managed : Bool
  url : String
  ti : Option TorrentInfoE

/-- The persistent settings store (save_settings_interface), reduced to
the two keys the adapter uses plus a count of save calls. -/
structure Store where
  save_path : String
  listen_port : Int
  saves : Nat

/-- The whole adapter state: engine session, add-torrent template,
optional settings store and the startup timestamp. -/
structure Adapter where
  engine : Engine
  params_model : AddTorrentParams
  store : Option Store
  start_time : Int

/-- The permissions_interface capability object. -/
structure Perms where
  allow_add : Bool
  allow_remove : Bool
  allow_list : Bool
  allow_start : Bool
  allow_stop : Bool
  allow_recheck : Bool
  allow_session_status : Bool
  allow_get_settings : Int → Bool
  allow_set_settings : Int → Bool

/-- External capabilities a handler consumes: wall-clock time, free
disk space, torrent-file loading and metainfo parsing (all out of
scope per spec section 1, reduced to their observable results). -/
structure Env where
  now : Int
  free_disk_space : String → Int
  load_torrent_file : String → Except String TorrentInfoE
  parse_metainfo : String → Except String TorrentInfoE
  base64decode : String → String

/- ===================== pure mappings from the source ===================== -/

/-- Function torrent_tr_status (transmission_webui.cpp lines 253-292).
The source initializes res to 0, assigns res = TR_STATUS_CHECK inside
the checking_resume_data case and breaks out of the switch, but the
final statement returns TR_STATUS_STOPPED and res is never read, so
the value computed for checking_resume_data is 0.  All other cases
return directly from inside the switch.  The default case hits a
TORRENT_ASSERT (a no-op in release builds) and falls to the final
return of 0. -/
def torrent_tr_status (ts : Torrent) : Int :=
  if ts.paused && !ts.auto_managed then 0
  else match ts.state with
    | TorrentState.checking_resume_data => 0
    | TorrentState.checking_files => if ts.paused then 1 else 2
    | TorrentState.downloading_metadata => if ts.paused then 3 else 4
    | TorrentState.downloading => if ts.paused then 3 else 4
    | TorrentState.allocating => if ts.paused then 3 else 4
    | TorrentState.seeding => if ts.paused then 5 else 6
    | TorrentState.finished => if ts.paused then 5 else 6
    | TorrentState.queued_for_checking => 0

/-- Function tr_file_priority (lines 294-305): engine native priority
to the Transmission wire scale. -/
def tr_file_priority (prio : Int) : Int :=
  if prio = 1 then -1 else if prio > 2 then 1 else 0

/-- Value printed for the eta field (lines 394-395).  C++ integer
division truncates toward zero, hence Int.tdiv. -/
def eta_field (ts : Torrent) : Int :=
  if ts.download_payload_rate ≤ 0 then -1
  else Int.tdiv (ts.total_wanted - ts.total_wanted_done) ts.download_payload_rate

/-- Value printed for uploadedRatio (lines 427-428); the integer
division quirk is preserved from the source. -/
def uploaded_ratio (ts : Torrent) : Int :=
  if ts.all_time_download = 0 then -2
  else Int.tdiv ts.all_time_upload ts.all_time_download

/-- Conversion of a C int to std::uint32_t on insertion into the
torrent id set. -/
def toU32 (i : Int) : Nat := (i % (2 ^ 32 : Int)).toNat

/-- Function parse_ids (lines 307-325): an ids array contributes the
atoi of each element; otherwise a single integer ids value, with 0
(also the value for an absent key) meaning no filter.  The element
tokens of the array are primitives in every well-formed request. -/
def parse_ids (args : Option Obj) : List Nat :=
  match find_keyO args ("ids") JType.arr with
  | some (Jv.arr items) => items.map (fun j => toU32 (atoi (rawText j)))
  | _ =>
    let id := find_int args ("ids")
    if id = 0 then [] else [toU32 id]

/-- Selection of torrents by the parsed id set, as used by the
torrent-get loop (line 378) and by get_torrents (lines 1257-1277): an
empty id set selects every torrent. -/
def t_selected (ids : List Nat) (t : Torrent) : Bool :=
  ids.isEmpty || ids.contains t.id

/- ===================== torrent-get emission ===================== -/

/-- Per-torrent field catalog of get_torrent (lines 384-495) in source
emission order, restricted to the fields whose values are part of the
modelled engine state.  Fields backed by unmodelled engine data
(metadata strings, piece bitmaps, peer and tracker lists,
float-formatted fields, wall-clock fields) are outside the model; no
claim depends on them. -/
def torrent_field_list (ts : Torrent) : List (String × String) :=
  [ ("addedDate", toString ts.added_time),
    ("doneDate", toString ts.completed_time),
    ("downloadDir", "\"" ++ escape_json ts.save_path ++ "\""),
    ("eta", toString (eta_field ts)),
    ("hashString", "\"" ++ ts.info_hash_hex ++ "\""),
    ("downloadedEver", toString ts.all_time_download),
    ("downloadLimit", toString ts.download_limit),
    ("downloadLimited", to_bool (decide (ts.download_limit > 0))),
    ("haveValid", toString ts.num_pieces),
    ("id", toString ts.id),
    ("isFinished", to_bool ts.is_finished),
    ("isStalled", to_bool (decide (ts.download_payload_rate = 0))),
    ("leftUntilDone", toString (ts.total_wanted - ts.total_wanted_done)),
    ("name", "\"" ++ escape_json ts.name ++ "\""),
    ("peer-limit", toString ts.max_connections),
    ("peersConnected", toString ts.num_peers),
    ("queuePosition", toString ts.queue_position),
    ("rateDownload", toString ts.download_rate),
    ("rateUpload", toString ts.upload_rate),
    ("secondsDownloading", toString ts.active_time),
    ("secondsSeeding", toString ts.finished_time),
    ("totalSize", toString ts.total_done),
    ("uploadedEver", toString ts.all_time_upload),
    ("uploadLimit", toString ts.upload_limit),
    ("uploadLimited", to_bool (decide (ts.upload_limit > 0))),
    ("uploadedRatio", toString (uploaded_ratio ts)),
    ("status", toString (torrent_tr_status ts)),
    ("wanted", "[" ++ commaJoin (ts.file_priorities.map to_bool_int) ++ "]"),
    ("priorities", "[" ++
      commaJoin (ts.file_priorities.map (fun q => toString (tr_file_priority q))) ++ "]") ]

/-- One emitted torrent object: requested fields only, in catalog
order, with the count-based comma rule. -/
def torrent_object (fields : List String) (ts : Torrent) : String :=
  "\x7b" ++ commaJoin (((torrent_field_list ts).filter
    (fun f => fields.contains f.1)).map
      (fun f => "\"" ++ f.1 ++ "\": " ++ f.2)) ++ "\x7d"

/- ===================== method handlers ===================== -/

/-- Handler get_torrent (lines 327-657). -/
def get_torrent (env : Env) (st : Adapter) (args : Option Obj) (tag : Int)
    (p : Perms) : Adapter × String :=
  if p.allow_list = false then (st, failure_envelope ("permission denied") tag)
  else match find_keyO args ("fields") JType.arr with
  | some (Jv.arr items) =>
    let fields := items.map rawText
    let ids := parse_ids args
    let sel := st.engine.torrents.filter (t_selected ids)
    (st, "\x7b \"result\": \"success\", \"arguments\": \x7b \"torrents\": [" ++
      commaJoin (sel.map (torrent_object fields)) ++
      "] \x7d, \"tag\": " ++ toString tag ++ " \x7d")
  | _ => (st, failure_envelope ("missing \x27field\x27 argument") tag)

/-- Empty success envelope emitted by the start/stop/verify/
reannounce/remove handlers. -/
def ok_empty (tag : Int) : String :=
  "\x7b \"result\": \"success\", \"tag\": " ++ toString tag ++
    ", \"arguments\": \x7b\x7d \x7d"

/-- Map an update over the torrents selected by the request ids; this
is the loop over the handle vector produced by get_torrents. -/
def map_selected (st : Adapter) (args : Option Obj) (f : Torrent → Torrent) : Adapter :=
  let ids := parse_ids args
  { st with engine := { st.engine with
      torrents := st.engine.torrents.map
        (fun t => if t_selected ids t then f t else t) } }

/-- Handler start_torrent (lines 799-818): auto-managed on, resume. -/
def start_torrent (env : Env) (st : Adapter) (args : Option Obj) (tag : Int)
    (p : Perms) : Adapter × String :=
  if p.allow_start = false then (st, failure_envelope ("permission denied") tag)
  else (map_selected st args
    (fun t => { t with auto_managed := true, paused := false }), ok_empty tag)

/-- Handler start_torrent_now (lines 820-839): auto-managed off, resume. -/
def start_torrent_now (env : Env) (st : Adapter) (args : Option Obj) (tag : Int)
    (p : Perms) : Adapter × String :=
  if p.allow_start = false then (st, failure_envelope ("permission denied") tag)
  else (map_selected st args
    (fun t => { t with auto_managed := false, paused := false }), ok_empty tag)

/-- Handler stop_torrent (lines 841-860): auto-managed off, pause. -/
def stop_torrent (env : Env) (st : Adapter) (args : Option Obj) (tag : Int)
    (p : Perms) : Adapter × String :=
  if p.allow_stop = false then (st, failure_envelope ("permission denied") tag)
  else (map_selected st args
    (fun t => { t with auto_managed := false, paused := true }), ok_empty tag)

/-- Handler verify_torrent (lines 862-880): force_recheck on each
selected handle; the engine-side effect is summarized as entering the
checking_files state. -/
def verify_torrent (env : Env) (st : Adapter) (args : Option Obj) (tag : Int)
    (p : Perms) : Adapter × String :=
  if p.allow_recheck = false then (st, failure_envelope ("permission denied") tag)
  else (map_selected st args
    (fun t => { t with state := TorrentState.checking_files }), ok_empty tag)

/-- Handler reannounce_torrent (lines 882-900): force_reannounce on
each selected handle; tracker announce timing is engine state outside
the model, so the torrent records are unchanged. -/
def reannounce_torrent (env : Env) (st : Adapter) (args : Option Obj) (tag : Int)
    (p : Perms) : Adapter × String :=
  if p.allow_start = false then (st, failure_envelope ("permission denied") tag)
  else (map_selected st args (fun t => t), ok_empty tag)

/-- Handler remove_torrent (lines 902-922); the delete-local-data flag
only affects on-disk files, which are outside the model. -/
def remove_torrent (env : Env) (st : Adapter) (args : Option Obj) (tag : Int)
    (p : Perms) : Adapter × String :=
  if p.allow_remove = false then (st, failure_envelope ("permission denied") tag)
  else
    let delete_data := find_bool args ("delete-local-data")
    let ids := parse_ids args
    ({ st with engine := { st.engine with
        torrents := st.engine.torrents.filter (fun t => !t_selected ids t) } },
      ok_empty tag)

/- ===================== torrent-set ===================== -/

/-- Options of a torrent-set request, parsed per lines 671-766 before
the handle loop runs. -/
structure SetTorrentOps where
  set_dl_limit : Bool
  download_limit : Int
  set_ul_limit : Bool
  upload_limit : Int
  move_storage : Bool
  location : String
  set_max_conns : Bool
  max_connections : Int
  add_trackers : List String
  all_file_prio : Int
  file_priority : List (Int × Int)

/-- Parse one file-priority array of torrent-set (lines 703-766): a
present-and-empty array records prio as the all-files value,
non-primitive elements are skipped, and each primitive element
contributes a pair of its atoi index and prio, appended in source
order. -/
def prio_array (args : Option Obj) (key : String) (prio : Int)
    (acc : Int × List (Int × Int)) : Int × List (Int × Int) :=
  match find_keyO args key JType.arr with
  | some (Jv.arr items) =>
    let afp := if items.isEmpty then prio else acc.1
    (afp, acc.2 ++ items.filterMap (fun j =>
      match j with
      | Jv.prim s => some (atoi s, prio)
      | _ => none))
  | _ => acc

/-- Argument parsing of set_torrent (lines 671-766): the limit values
are forced to zero when the matching limited flag is false or absent;
the five priority arrays are read in the source order files-unwanted,
files-wanted, priority-high, priority-low, priority-normal with native
values 0, 2, 7, 1, 2. -/
def parse_set_torrent (args : Option Obj) : SetTorrentOps :=
  let dl := find_intF args ("downloadLimit")
  let dl_val := if find_bool args ("downloadLimited") then dl.1 else 0
  let ul := find_intF args ("uploadLimit")
  let ul_val := if find_bool args ("uploadLimited") then ul.1 else 0
  let loc := find_stringF args ("location")
  let mc := find_intF args ("peer-limit")
  let trackers := match find_keyO args ("trackerAdd") JType.arr with
    | some (Jv.arr items) => items.filterMap (fun j =>
        match j with
        | Jv.str s => some s
        | _ => none)
    | _ => []
  let pr0 : Int × List (Int × Int) := (-1, [])
  let pr1 := prio_array args ("files-unwanted") 0 pr0
  let pr2 := prio_array args ("files-wanted") 2 pr1
  let pr3 := prio_array args ("priority-high") 7 pr2
  let pr4 := prio_array args ("priority-low") 1 pr3
  let pr5 := prio_array args ("priority-normal") 2 pr4
  { set_dl_limit := dl.2, download_limit := dl_val,
    set_ul_limit := ul.2, upload_limit := ul_val,
    move_storage := loc.2, location := loc.1,
    set_max_conns := mc.2, max_connections := mc.1,
    add_trackers := trackers,
    all_file_prio := pr5.1, file_priority := pr5.2 }

/-- Application of the file-priority arrays to the priority vector of
one handle (lines 785-793): the all-files default, when some array was
empty, is written first, then the per-index overrides run in order
with the range check of line 791. -/
def apply_file_priorities (afp : Int) (fps : List (Int × Int))
    (prio : List Int) : List Int :=
  let base := if afp ≠ -1 then List.replicate prio.length afp else prio
  fps.foldl (fun acc iv =>
    if 0 ≤ iv.1 ∧ iv.1 < (acc.length : Int) then acc.set iv.1.toNat iv.2 else acc) base

/-- Per-handle body of the torrent-set loop (lines 768-796).  Note the
guard at line 783: the whole priority block, including the all-files
fill, runs only when the per-index pair list is non-empty. -/
def set_torrent_update (ops : SetTorrentOps) (t : Torrent) : Torrent :=
  let t1 := if ops.set_dl_limit then { t with download_limit := ops.download_limit * 1000 } else t
  let t2 := if ops.set_ul_limit then { t1 with upload_limit := ops.upload_limit * 1000 } else t1
  let t3 := if ops.move_storage then { t2 with save_path := ops.location } else t2
  let t4 := if ops.set_max_conns then { t3 with max_connections := ops.max_connections } else t3
  let t5 := if !ops.add_trackers.isEmpty then { t4 with trackers := t4.trackers ++ ops.add_trackers } else t4
  if !ops.file_priority.isEmpty then
    { t5 with file_priorities :=
        apply_file_priorities ops.all_file_prio ops.file_priority t5.file_priorities }
  else t5

/-- Handler set_torrent (lines 659-797).  The success path writes no
response envelope: the buffer stays empty. -/
def set_torrent (env : Env) (st : Adapter) (args : Option Obj) (tag : Int)
    (p : Perms) : Adapter × String :=
  if p.allow_set_settings (-1) = false then (st, failure_envelope ("permission denied") tag)
  else (map_selected st args (set_torrent_update (parse_set_torrent args)), "")

/- ===================== torrent-add ===================== -/

/-- Construction of the add_torrent_params for a torrent-add request
(lines 155-170): a copy of the template, an optional download-dir
override, then the unconditional overwrite of the paused and
auto-managed flags from the paused argument (absent reads as false). -/
def add_torrent_request_params (model : AddTorrentParams) (args : Option Obj) :
    AddTorrentParams :=
  let sp := find_string args ("download-dir")
  let params := if sp ≠ "" then { model with save_path := sp } else model
  if find_bool args ("paused") then
    { params with flag_paused := true, flag_auto_managed := false }
  else
    { params with flag_paused := false, flag_auto_managed := true }

/-- Torrent record the engine creates for freshly added params.  The
engine internals are out of scope; the fields the response envelope
reads come from the parsed metadata when present, the flags from the
params, remaining counters start at zero. -/
def torrent_from_params (params : AddTorrentParams) (id : Nat) : Torrent :=
  { id := id
    name := match params.ti with
      | some ti => ti.name
      | none => ""
    save_path := params.save_path
    info_hash_hex := match params.ti with
      | some ti => ti.info_hash_hex
      | none => ""
    paused := params.flag_paused
    auto_managed := params.flag_auto_managed
    state := TorrentState.checking_resume_data
    download_payload_rate := 0, total_wanted := 0, total_wanted_done := 0
    download_limit := 0, upload_limit := 0, max_connections := 0
    all_time_download := 0, all_time_upload := 0
    num_pieces := 0, num_peers := 0, queue_position := 0
    download_rate := 0, upload_rate := 0
    added_time := 0, completed_time := 0, active_time := 0, finished_time := 0
    total_done := 0, is_finished := false
    file_priorities := [], trackers := [] }

/-- Engine add_torrent capability: appends the new torrent and assigns
the next numeric id. -/
def engine_add_torrent (e : Engine) (params : AddTorrentParams) : Engine × Torrent :=
  let t := torrent_from_params params e.next_id
  ({ e with torrents := e.torrents ++ [t], next_id := e.next_id + 1 }, t)

/-- Handler add_torrent (lines 144-218).  The cookies argument is read
and never used in the source.  URL detection is a pure prefix test on
the filename string; a non-empty non-URL filename is loaded as a local
file; an empty filename selects the base64 metainfo path. -/
def add_torrent (env : Env) (st : Adapter) (args : Option Obj) (tag : Int)
    (p : Perms) : Adapter × String :=
  if p.allow_add = false then (st, failure_envelope ("permission denied") tag)
  else
    let params := add_torrent_request_params st.params_model args
    let url := find_string args ("filename")
    let loaded : Except String AddTorrentParams :=
      if url.take 7 = "http://" ∨ url.take 8 = "https://" ∨ url.take 7 = "magnet:" then
        Except.ok { params with url := url }
      else if url ≠ "" then
        (env.load_torrent_file url).map (fun ti => { params with ti := some ti })
      else
        (env.parse_metainfo (env.base64decode (find_string args ("metainfo")))).map
          (fun ti => { params with ti := some ti })
    match loaded with
    | Except.error msg => (st, failure_envelope msg tag)
    | Except.ok ps =>
      let r := engine_add_torrent st.engine ps
      ({ st with engine := r.1 },
        "\x7b \"result\": \"success\", \"tag\": " ++ toString tag ++
          ", \"arguments\": \x7b \"torrent-added\": \x7b \"hashString\": \"" ++
          r.2.info_hash_hex ++ "\", \"id\": " ++ toString r.2.id ++
          ", \"name\": \"" ++ escape_json r.2.name ++ "\"\x7d\x7d\x7d")

/- ===================== session handlers ===================== -/

/-- Handler session_stats (lines 924-975): both stat blocks report the
same current counters and secondsActive is now minus the adapter start
time. -/
def session_stats (env : Env) (st : Adapter) (args : Option Obj) (tag : Int)
    (p : Perms) : Adapter × String :=
  if p.allow_session_status = false then (st, failure_envelope ("permission denied") tag)
  else
    let c := st.engine.counters
    let stats_block :=
      "\"uploadedBytes\": " ++ toString c.total_payload_upload ++
      ",\"downloadedBytes\": " ++ toString c.total_payload_download ++
      ",\"filesAdded\": " ++ toString c.num_torrents ++
      ",\"sessionCount\": 1,\"secondsActive\": " ++ toString (env.now - st.start_time)
    (st, "\x7b \"result\": \"success\", \"tag\": " ++ toString tag ++
      ", \"arguments\": \x7b \"activeTorrentCount\": " ++
      toString (c.num_torrents - c.num_paused_torrents) ++
      ",\"downloadSpeed\": " ++ toString c.payload_download_rate ++
      ",\"pausedTorrentCount\": " ++ toString c.num_paused_torrents ++
      ",\"torrentCount\": " ++ toString c.num_torrents ++
      ",\"uploadSpeed\": " ++ toString c.payload_upload_rate ++
      ",\"cumulative-stats\": \x7b" ++ stats_block ++
      "\x7d,\"current-stats\": \x7b" ++ stats_block ++ "\x7d\x7d\x7d")

/-- Field values emitted by get_session (lines 1029-1046) before
formatting: cache blocks convert to MiB, rate limits divide by 1000,
the enabled flags are positivity of the engine rate, the template
flags derive start-added-torrents, and encryption derives from the
pe_settings policy pair. -/
structure SessionGetArgs where
  cache_size_mb : Int
  download_dir : String
  download_dir_free_space : Int
  download_queue_size : Int
  seed_queue_size : Int
  speed_limit_down : Int
  speed_limit_up : Int
  speed_limit_down_enabled : Bool
  speed_limit_up_enabled : Bool
  start_added_torrents : Bool
  utp_enabled : Bool
  version : String
  peer_port : Int
  peer_limit_global : Int
  encryption : String

/-- Values of the non-constant fields of the session-get response. -/
def get_session_args (env : Env) (st : Adapter) : SessionGetArgs :=
  let sett := st.engine.settings
  { cache_size_mb := Int.tdiv (sett.cache_size * 16) 1024
    download_dir := st.params_model.save_path
    download_dir_free_space := env.free_disk_space st.params_model.save_path
    download_queue_size := sett.active_downloads
    seed_queue_size := sett.active_seeds
    speed_limit_down := Int.tdiv sett.download_rate_limit 1000
    speed_limit_up := Int.tdiv sett.upload_rate_limit 1000
    speed_limit_down_enabled := decide (sett.download_rate_limit > 0)
    speed_limit_up_enabled := decide (sett.upload_rate_limit > 0)
    start_added_torrents := st.params_model.flag_auto_managed || !st.params_model.flag_paused
    utp_enabled := sett.enable_incoming_utp || sett.enable_outgoing_utp
    version := sett.user_agent
    peer_port := st.engine.listen_port
    peer_limit_global := sett.connections_limit
    encryption :=
      if st.engine.pe.in_enc_policy = EncPolicy.forced then "required"
      else if st.engine.pe.prefer_rc4 then "preferred" else "tolerated" }

/-- Response body of get_session (lines 990-1047), stubbed constant
fields included. -/
def render_session (tag : Int) (a : SessionGetArgs) : String :=
  "\x7b \"result\": \"success\", \"tag\": " ++ toString tag ++
  ", \"arguments\": \x7b \"alt-speed-down\": 0,\"alt-speed-enabled\": false," ++
  "\"alt-speed-time-begin\": 0,\"alt-speed-time-enabled\": false," ++
  "\"alt-speed-time-end\": 0,\"alt-speed-time-day\": 0,\"alt-speed-up\": 0," ++
  "\"blocklist-url\": \"\",\"blocklist-enabled\": false,\"blocklist-size\": 0," ++
  "\"cache-size-mb\": " ++ toString a.cache_size_mb ++
  ",\"config-dir\": \"\",\"download-dir\": \"" ++ a.download_dir ++
  "\",\"download-dir-free-space\": " ++ toString a.download_dir_free_space ++
  ",\"download-queue-size\": " ++ toString a.download_queue_size ++
  ",\"download-queue-enabled\": true,\"seed-queue-size\": " ++ toString a.seed_queue_size ++
  ",\"seed-queue-enabled\": true,\"speed-limit-down\": " ++ toString a.speed_limit_down ++
  ",\"speed-limit-up\": " ++ toString a.speed_limit_up ++
  ",\"speed-limit-down-enabled\": " ++ to_bool a.speed_limit_down_enabled ++
  ",\"speed-limit-up-enabled\": " ++ to_bool a.speed_limit_up_enabled ++
  ",\"start-added-torrents\": " ++ to_bool a.start_added_torrents ++
  ",\"units\": \x7b \"speed-units\": [\"kB/s\", \"MB/s\", \"GB/s\", \"TB/s\"]," ++
  "\"speed-bytes\": [1000, 1000000, 1000000000, 1000000000000]," ++
  "\"size-units\": [\"kB\", \"MB\", \"GB\", \"TB\"]," ++
  "\"size-bytes\": [1000, 1000000, 1000000000, 1000000000000]," ++
  "\"memory-units\": [\"kB\", \"MB\", \"GB\", \"TB\"]," ++
  "\"memory-bytes\": [1000, 1000000, 1000000000, 1000000000000]\x7d," ++
  "\"utp-enabled\": " ++ to_bool a.utp_enabled ++
  ",\"version\": \"" ++ a.version ++
  "\",\"peer-port\": " ++ toString a.peer_port ++
  ",\"peer-limit-global\": " ++ toString a.peer_limit_global ++
  ",\"encryption\": \"" ++ a.encryption ++ "\"\x7d\x7d"

/-- Handler get_session (lines 977-1048). -/
def get_session (env : Env) (st : Adapter) (args : Option Obj) (tag : Int)
    (p : Perms) : Adapter × String :=
  if p.allow_get_settings (-1) = false then (st, failure_envelope ("permission denied") tag)
  else (st, render_session tag (get_session_args env st))

/-- Pending settings bundle accumulated by set_session and applied
once at the end via apply_settings (line 1248). -/
structure PendingPack where
  cache_size : Option Int
  active_downloads : Option Int
  active_seeds : Option Int
  download_rate_limit : Option Int
  upload_rate_limit : Option Int
  connections_limit : Option Int
  enable_incoming_utp : Option Bool
  enable_outgoing_utp : Option Bool

/-- The freshly constructed settings_pack of line 1053. -/
def empty_pack : PendingPack :=
  ⟨none, none, none, none, none, none, none, none⟩

/-- Engine apply_settings: every key present in the bundle overwrites
the session value, other values stay. -/
def apply_settings (s : SettingsPack) (pk : PendingPack) : SettingsPack :=
  { s with
    cache_size := pk.cache_size.getD s.cache_size
    active_downloads := pk.active_downloads.getD s.active_downloads
    active_seeds := pk.active_seeds.getD s.active_seeds
    download_rate_limit := pk.download_rate_limit.getD s.download_rate_limit
    upload_rate_limit := pk.upload_rate_limit.getD s.upload_rate_limit
    connections_limit := pk.connections_limit.getD s.connections_limit
    enable_incoming_utp := pk.enable_incoming_utp.getD s.enable_incoming_utp
    enable_outgoing_utp := pk.enable_outgoing_utp.getD s.enable_outgoing_utp }

/-- Write of the save_path key of the settings store, when a store is
attached. -/
def store_set_save_path (st : Adapter) (v : String) : Adapter :=
  match st.store with
  | some s => { st with store := some { s with save_path := v } }
  | none => st

/-- Write of the listen_port key of the settings store, when a store
is attached. -/
def store_set_listen_port (st : Adapter) (v : Int) : Adapter :=
  match st.store with
  | some s => { st with store := some { s with listen_port := v } }
  | none => st

/-- Flush of the settings store (m_settings->save at line 1253). -/
def store_save (st : Adapter) : Adapter :=
  match st.store with
  | some s => { st with store := some { s with saves := s.saves + 1 } }
  | none => st

/-- Value computed by the encryption branch of set_session (lines
1212-1238).  The source stores this in a function-local pe_settings
variable obtained from get_pe_settings and never passes it back to the
session, so the computed value is discarded. -/
def encryption_branch_pes (pes : PeSettings) (value : String) : PeSettings :=
  if value = "required" then
    { in_enc_policy := EncPolicy.forced, out_enc_policy := EncPolicy.forced,
      allowed_enc_level := EncLevel.rc4, prefer_rc4 := true }
  else if value = "preferred" then
    { in_enc_policy := EncPolicy.enabled, out_enc_policy := EncPolicy.enabled,
      allowed_enc_level := EncLevel.both, prefer_rc4 := true }
  else
    { in_enc_policy := EncPolicy.enabled, out_enc_policy := EncPolicy.enabled,
      allowed_enc_level := EncLevel.both, prefer_rc4 := false }

/-- Body of the set_session key loop (lines 1056-1246) for one
key/value pair.  A denied or unrecognized key leaves everything
unchanged (continue); the utp-enabled guard checks the outgoing
enumerator twice, exactly as the source does. -/
def set_session_key (p : Perms) (acc : Adapter × PendingPack)
    (kv : String × Jv) : Adapter × PendingPack :=
  let st := acc.1
  let pack := acc.2
  let key := kv.1
  let value := rawText kv.2
  if key = "alt-speed-down" then acc
  else if key = "cache-size-mb" then
    if p.allow_set_settings settings_pack.cache_size = false then acc
    else (st, { pack with cache_size := some (Int.tdiv (atoi value * 1024) 16) })
  else if key = "download-dir" then
    if p.allow_set_settings (-1) = false then acc
    else (store_set_save_path
      { st with params_model := { st.params_model with save_path := value } } value, pack)
  else if key = "download-queue-size" then
    if p.allow_set_settings settings_pack.active_downloads = false then acc
    else (st, { pack with active_downloads := some (atoi value) })
  else if key = "seed-queue-size" then
    if p.allow_set_settings settings_pack.active_seeds = false then acc
    else (st, { pack with active_seeds := some (atoi value) })
  else if key = "speed-limit-down" then
    if p.allow_set_settings settings_pack.download_rate_limit = false then acc
    else (st, { pack with download_rate_limit := some (atoi value * 1000) })
  else if key = "speed-limit-up" then
    if p.allow_set_settings settings_pack.upload_rate_limit = false then acc
    else (st, { pack with upload_rate_limit := some (atoi value * 1000) })
  else if key = "speed-limit-down-enabled" then
    if p.allow_set_settings settings_pack.download_rate_limit = false then acc
    else if value = "true" then (st, { pack with download_rate_limit := some 100000 })
    else (st, { pack with download_rate_limit := some 0 })
  else if key = "speed-limit-up-enabled" then
    if p.allow_set_settings settings_pack.upload_rate_limit = false then acc
    else if value = "true" then (st, { pack with upload_rate_limit := some 100000 })
    else (st, { pack with upload_rate_limit := some 0 })
  else if key = "start-added-torrents" then
    if p.allow_set_settings (-1) = false then acc
    else if value = "true" then acc
    else ({ st with params_model :=
      { st.params_model with flag_paused := true, flag_auto_managed := false } }, pack)
  else if key = "peer-port" then
    if p.allow_set_settings (-1) = false then acc
    else
      let port := atoi value
      (store_set_listen_port
        { st with engine := { st.engine with listen_port := port } } port, pack)
  else if key = "utp-enabled" then
    if p.allow_set_settings settings_pack.enable_outgoing_utp = false ∨
       p.allow_set_settings settings_pack.enable_outgoing_utp = false then acc
    else
      let utp : Bool := value = "true"
      (st, { pack with enable_outgoing_utp := some utp, enable_incoming_utp := some utp })
  else if key = "peer-limit-global" then
    if p.allow_set_settings settings_pack.connections_limit = false then acc
    else (st, { pack with connections_limit := some (atoi value) })
  else if key = "encryption" then
    if p.allow_set_settings (-1) = false then acc
    else
      let pes := encryption_branch_pes st.engine.pe value
      acc
  else acc

/-- Handler set_session (lines 1050-1255).  The source dereferences
the args pointer unconditionally at line 1055 (args->size), so the
handler is defined only for a present arguments object; the dispatcher
maps the NULL case to the undefined outcome none.  No response
envelope is ever written: the buffer stays empty. -/
def set_session (env : Env) (st : Adapter) (args : Obj) (tag : Int)
    (p : Perms) : Adapter × String :=
  let r := args.foldl (set_session_key p) (st, empty_pack)
  let st1 := { r.1 with engine :=
    { r.1.engine with settings := apply_settings r.1.engine.settings r.2 } }
  (store_save st1, "")

/- ===================== dispatcher ===================== -/

/-- Method table (lines 95-109), in source order. -/
def handler_names : List String :=
  ["torrent-add", "torrent-get", "torrent-set", "torrent-start",
   "torrent-start-now", "torrent-stop", "torrent-verify",
   "torrent-reannounce", "torrent-remove", "session-stats",
   "session-get", "session-set"]

/-- Dispatch on a matched method name (the member-function pointer
call at line 137).  The result none marks the one input on which the
program has no defined behavior: the source hands the possibly NULL
args pointer straight to the handler, and set_session dereferences it
unconditionally (line 1055), so a session-set request without an
arguments object crashes instead of producing a response.  Every other
outcome is a defined buffer, wrapped in some. -/
def dispatch (m : String) (env : Env) (st : Adapter) (args : Option Obj)
    (tag : Int) (p : Perms) : Option (Adapter × String) :=
  if m = "torrent-add" then some (add_torrent env st args tag p)
  else if m = "torrent-get" then some (get_torrent env st args tag p)
  else if m = "torrent-set" then some (set_torrent env st args tag p)
  else if m = "torrent-start" then some (start_torrent env st args tag p)
  else if m = "torrent-start-now" then some (start_torrent_now env st args tag p)
  else if m = "torrent-stop" then some (stop_torrent env st args tag p)
  else if m = "torrent-verify" then some (verify_torrent env st args tag p)
  else if m = "torrent-reannounce" then some (reannounce_torrent env st args tag p)
  else if m = "torrent-remove" then some (remove_torrent env st args tag p)
  else if m = "session-stats" then some (session_stats env st args tag p)
  else if m = "session-get" then some (get_session env st args tag p)
  else if m = "session-set" then
    match args with
    | some o => some (set_session env st o tag p)
    | none => none
  else some (st, "")

/-- Dispatcher handle_json_rpc (lines 111-142): a missing or
non-string method yields the fixed failure envelope with tag -1; a
parsed method name outside the table is logged and leaves the buffer
untouched (empty); a matched method gets the arguments object and the
tag and runs its handler.  The value none stands for the one
undefined-behavior input (session-set without an arguments object, see
dispatch); every defined response buffer is wrapped in some. -/
def handle_json_rpc (env : Env) (st : Adapter) (top : Obj) (p : Perms) :
    Option (Adapter × String) :=
  match find_key top ("method") JType.str with
  | some (Jv.str m) =>
    if handler_names.contains m then
      let args : Option Obj :=
        match find_key top ("arguments") JType.obj with
        | some (Jv.obj o) => some o
        | _ => none
      dispatch m env st args (find_int (some top) ("tag")) p
    else some (st, "")
  | _ => some (st, failure_envelope ("missing method in request") (-1))

/- ===================== fixtures for concrete evaluation ===================== -/

/-- Permit-all permissions: the no_auth default the adapter installs
when constructed without an authenticator. -/
def permit_all : Perms :=
  { allow_add := true, allow_remove := true, allow_list := true,
    allow_start := true, allow_stop := true, allow_recheck := true,
    allow_session_status := true,
    allow_get_settings := fun _ => true,
    allow_set_settings := fun _ => true }

/-- Deny-all permissions, for exercising the permission gates. -/
def deny_all : Perms :=
  { allow_add := false, allow_remove := false, allow_list := false,
    allow_start := false, allow_stop := false, allow_recheck := false,
    allow_session_status := false,
    allow_get_settings := fun _ => false,
    allow_set_settings := fun _ => false }

/-- A downloading torrent fixture with id 1 and two files at native
priority 0. -/
def t_fix : Torrent :=
  { id := 1, name := "a", save_path := ".", info_hash_hex := "",
    paused := false, auto_managed := true,
    state := TorrentState.downloading,
    download_payload_rate := 0, total_wanted := 0, total_wanted_done := 0,
    download_limit := 0, upload_limit := 0, max_connections := 0,
    all_time_download := 0, all_time_upload := 0, num_pieces := 0,
    num_peers := 0, queue_position := 0, download_rate := 0, upload_rate := 0,
    added_time := 0, completed_time := 0, active_time := 0, finished_time := 0,
    total_done := 0, is_finished := false, file_priorities := [0, 0],
    trackers := [] }

/-- Session settings fixture with both rate limits disabled. -/
def sett_fix : SettingsPack :=
  { cache_size := 0, active_downloads := 3, active_seeds := 5,
    download_rate_limit := 0, upload_rate_limit := 0, connections_limit := 200,
    enable_incoming_utp := false, enable_outgoing_utp := false,
    user_agent := "test" }

/-- Encryption settings fixture: incoming policy enabled (not forced),
rc4 not preferred, so session-get reads it as tolerated. -/
def pe_fix : PeSettings :=
  { in_enc_policy := EncPolicy.enabled, out_enc_policy := EncPolicy.enabled,
    allowed_enc_level := EncLevel.both, prefer_rc4 := false }

/-- Zeroed session counters fixture. -/
def counters_fix : SessionCounters := ⟨0, 0, 0, 0, 0, 0⟩

/-- Engine fixture holding the single torrent fixture. -/
def engine_fix : Engine :=
  { torrents := [t_fix], settings := sett_fix, pe := pe_fix,
    listen_port := 6881, counters := counters_fix, next_id := 2 }

/-- Default add-torrent template: not paused, auto-managed. -/
def model_fix : AddTorrentParams :=
  { save_path := ".", flag_paused := false, flag_auto_managed := true,
    url := "", ti := none }

/-- Adapter fixture without a settings store. -/
def adapter_fix : Adapter :=
  { engine := engine_fix, params_model := model_fix, store := none,
    start_time := 0 }

/-- Environment fixture: failing loaders, zero clock and free space. -/
def env_fix : Env :=
  { now := 0, free_disk_space := fun _ => 0,
    load_torrent_file := fun _ => Except.error ("file not found"),
    parse_metainfo := fun _ => Except.error ("invalid torrent"),
    base64decode := fun s => s }

/- ===================== claims ===================== -/

/-- Claim C3 (code-bug evaluation): for a torrent in the
checking_resume_data engine state that is not stopped, the wire status
the code computes is 0 (stopped), not the 2 (check) the claim and the
spec mapping require.  The source assigns TR_STATUS_CHECK to the local
res inside that case and then returns TR_STATUS_STOPPED without ever
reading res. -/
theorem c3_checking_resume_data_is_stopped :
    torrent_tr_status { t_fix with state := TorrentState.checking_resume_data } = 0 ∧
    torrent_tr_status { t_fix with state := TorrentState.checking_resume_data } ≠ 2 := by
  constructor <;> decide

/-- Claim C9: the emitted eta value is -1 whenever the download
payload rate is non-positive, so the division branch never runs with a
non-positive divisor; for a positive rate it is the truncated quotient
of the remaining wanted bytes by the rate. -/
theorem c9_eta_guard (ts : Torrent) :
    (ts.download_payload_rate ≤ 0 → eta_field ts = -1) ∧
    (0 < ts.download_payload_rate →
      eta_field ts =
        Int.tdiv (ts.total_wanted - ts.total_wanted_done) ts.download_payload_rate) := by
  constructor
  · intro h
    simp [eta_field, h]
  · intro h
    have h2 : ¬ ts.download_payload_rate ≤ 0 := not_le.mpr h
    simp [eta_field, h2]

/-- Witness for C9 at the fixture torrent, whose payload rate is 0. -/
theorem c9_eta_guard_witness : eta_field t_fix = -1 :=
  (c9_eta_guard t_fix).1 (by decide)

/-- Claim C10: torrent-add overwrites the template flags from the
request paused argument unconditionally; paused true gives a paused,
not auto-managed params record, paused false or absent (find_bool
reads an absent key as false) gives a not paused, auto-managed one,
whatever the template held. -/
theorem c10_paused_overwrite (model : AddTorrentParams) (args : Option Obj) :
    (find_bool args ("paused") = true →
      (add_torrent_request_params model args).flag_paused = true ∧
      (add_torrent_request_params model args).flag_auto_managed = false) ∧
    (find_bool args ("paused") = false →
      (add_torrent_request_params model args).flag_paused = false ∧
      (add_torrent_request_params model args).flag_auto_managed = true) := by
  constructor <;> intro h <;> simp [add_torrent_request_params, h]

/-- Template configured (via start-added-torrents false) to add
torrents paused. -/
def paused_model : AddTorrentParams :=
  { save_path := ".", flag_paused := true, flag_auto_managed := false,
    url := "", ti := none }

/-- Witness for C10: a request without a paused argument overrides a
template configured to add torrents paused. -/
theorem c10_paused_overwrite_witness :
    (add_torrent_request_params paused_model (some [])).flag_paused = false ∧
    (add_torrent_request_params paused_model (some [])).flag_auto_managed = true :=
  (c10_paused_overwrite paused_model (some [])).2 (by decide)

/-- Projection of set_torrent_update onto the handle download limit:
only the set_download_limit call touches it. -/
theorem stu_download_limit (ops : SetTorrentOps) (t : Torrent) :
    (set_torrent_update ops t).download_limit =
      if ops.set_dl_limit then ops.download_limit * 1000 else t.download_limit := by
  unfold set_torrent_update
  by_cases h1 : ops.set_dl_limit = true <;>
  by_cases h2 : ops.set_ul_limit = true <;>
  by_cases h3 : ops.move_storage = true <;>
  by_cases h4 : ops.set_max_conns = true <;>
  by_cases h5 : (!ops.add_trackers.isEmpty) = true <;>
  by_cases h6 : (!ops.file_priority.isEmpty) = true <;>
  simp [h1, h2, h3, h4, h5, h6]

/-- Projection of set_torrent_update onto the handle upload limit:
only the set_upload_limit call touches it. -/
theorem stu_upload_limit (ops : SetTorrentOps) (t : Torrent) :
    (set_torrent_update ops t).upload_limit =
      if ops.set_ul_limit then ops.upload_limit * 1000 else t.upload_limit := by
  unfold set_torrent_update
  by_cases h1 : ops.set_dl_limit = true <;>
  by_cases h2 : ops.set_ul_limit = true <;>
  by_cases h3 : ops.move_storage = true <;>
  by_cases h4 : ops.set_max_conns = true <;>
  by_cases h5 : (!ops.add_trackers.isEmpty) = true <;>
  by_cases h6 : (!ops.file_priority.isEmpty) = true <;>
  simp [h1, h2, h3, h4, h5, h6]

/-- Parsed set_dl_limit flag is the found? bit of downloadLimit. -/
theorem pst_set_dl (args : Option Obj) :
    (parse_set_torrent args).set_dl_limit = (find_intF args ("downloadLimit")).2 := rfl

/-- Parsed download limit value, zeroed unless downloadLimited. -/
theorem pst_dl (args : Option Obj) :
    (parse_set_torrent args).download_limit =
      if find_bool args ("downloadLimited") then (find_intF args ("downloadLimit")).1
      else 0 := rfl

/-- Parsed set_ul_limit flag is the found? bit of uploadLimit. -/
theorem pst_set_ul (args : Option Obj) :
    (parse_set_torrent args).set_ul_limit = (find_intF args ("uploadLimit")).2 := rfl

/-- Parsed upload limit value, zeroed unless uploadLimited. -/
theorem pst_ul (args : Option Obj) :
    (parse_set_torrent args).upload_limit =
      if find_bool args ("uploadLimited") then (find_intF args ("uploadLimit")).1
      else 0 := rfl

/-- Claim C4: when torrent-set supplies downloadLimit (resp.
uploadLimit), the limit written to each selected handle is 0 whenever
the matching limited flag is false (which is also what an absent flag
reads as), and otherwise the supplied kB/s value times 1000. -/
theorem c4_limits (args : Option Obj) (t : Torrent) :
    ((find_intF args ("downloadLimit")).2 = true →
      (find_bool args ("downloadLimited") = false →
        (set_torrent_update (parse_set_torrent args) t).download_limit = 0) ∧
      (find_bool args ("downloadLimited") = true →
        (set_torrent_update (parse_set_torrent args) t).download_limit =
          (find_intF args ("downloadLimit")).1 * 1000)) ∧
    ((find_intF args ("uploadLimit")).2 = true →
      (find_bool args ("uploadLimited") = false →
        (set_torrent_update (parse_set_torrent args) t).upload_limit = 0) ∧
      (find_bool args ("uploadLimited") = true →
        (set_torrent_update (parse_set_torrent args) t).upload_limit =
          (find_intF args ("uploadLimit")).1 * 1000)) := by
  constructor
  · intro hfound
    refine ⟨fun hflag => ?_, fun hflag => ?_⟩ <;>
      rw [stu_download_limit, pst_set_dl, pst_dl, hfound, hflag] <;> simp
  · intro hfound
    refine ⟨fun hflag => ?_, fun hflag => ?_⟩ <;>
      rw [stu_upload_limit, pst_set_ul, pst_ul, hfound, hflag] <;> simp

/-- Arguments of the S4 scenario: upload limit 250 kB/s, limited. -/
def c4_args : Option Obj :=
  some [("ids", Jv.arr [Jv.prim ("1")]),
        ("uploadLimit", Jv.prim ("250")),
        ("uploadLimited", Jv.prim ("true"))]

/-- Witness for C4: upload limit 250 with uploadLimited true writes an
engine upload limit of 250000. -/
theorem c4_limits_witness :
    (set_torrent_update (parse_set_torrent c4_args) t_fix).upload_limit = 250000 := by
  have h := ((c4_limits c4_args t_fix).2 (by decide)).2 (by decide)
  rw [h]
  decide

/-- Arguments of a torrent-set request whose only priority array is an
empty files-wanted. -/
def c5_args : Option Obj :=
  some [("ids", Jv.arr [Jv.prim ("1")]), ("files-wanted", Jv.arr [])]

/-- Claim C5 (code-bug evaluation): a torrent-set request whose only
priority array is the empty files-wanted leaves every file priority of
the selected torrent unchanged at 0, because the application block of
lines 783-795, including the all-files fill, is guarded by the
per-index pair list being non-empty; the claim (and spec property P4)
requires every file to become wanted at native priority 2. -/
theorem c5_empty_array_not_applied :
    ((set_torrent env_fix adapter_fix c5_args 1 permit_all).1.engine.torrents.map
      (fun t => t.file_priorities) = [[0, 0]]) ∧
    ((set_torrent env_fix adapter_fix c5_args 1 permit_all).1.engine.torrents.map
      (fun t => t.file_priorities) ≠ [[2, 2]]) := by
  constructor <;> decide

/-- Arguments of the S5 scenario: peer-port 51413 and encryption
required in one session-set request. -/
def c2_args : Obj :=
  [("peer-port", Jv.prim ("51413")), ("encryption", Jv.str ("required"))]

/-- Claim C2 (code-bug evaluation): after session-set with peer-port
51413 and encryption required on a session whose incoming policy is
enabled (not forced), session-get reports peer-port 51413 but
encryption tolerated instead of required: the encryption branch of
set_session builds the new pe_settings in a function-local variable
and never hands it back to the session, so the write is dropped. -/
theorem c2_encryption_write_dropped :
    ((get_session_args env_fix
        (set_session env_fix adapter_fix c2_args 0 permit_all).1).peer_port = 51413) ∧
    ((get_session_args env_fix
        (set_session env_fix adapter_fix c2_args 0 permit_all).1).encryption = "tolerated") ∧
    ((get_session_args env_fix
        (set_session env_fix adapter_fix c2_args 0 permit_all).1).encryption ≠ "required") := by
  refine ⟨by decide, by decide, by decide⟩

/-- Claim C6: whenever the permission check for the download rate
limit passes, session-set with speed-limit-down-enabled true followed
by session-get yields speed-limit-down-enabled true and
speed-limit-down 100: the handler writes engine rate 100000 through
the pending bundle, and session-get reports the engine rate divided by
1000 with the enabled flag being its positivity. -/
theorem c6_speed_limit_down_roundtrip (env : Env) (st : Adapter) (p : Perms)
    (h : p.allow_set_settings settings_pack.download_rate_limit = true) :
    (get_session_args env (set_session env st
        [("speed-limit-down-enabled", Jv.prim ("true"))] 0 p).1).speed_limit_down_enabled
      = true ∧
    (get_session_args env (set_session env st
        [("speed-limit-down-enabled", Jv.prim ("true"))] 0 p).1).speed_limit_down
      = 100 := by
  cases hs : st.store <;>
    simp [set_session, set_session_key, empty_pack, apply_settings, rawText, h,
      get_session_args, store_save, hs] <;> decide

/-- Witness for C6 at the adapter fixture with permit-all permissions. -/
theorem c6_speed_limit_down_roundtrip_witness :
    (get_session_args env_fix (set_session env_fix adapter_fix
        [("speed-limit-down-enabled", Jv.prim ("true"))] 0 permit_all).1).speed_limit_down_enabled
      = true ∧
    (get_session_args env_fix (set_session env_fix adapter_fix
        [("speed-limit-down-enabled", Jv.prim ("true"))] 0 permit_all).1).speed_limit_down
      = 100 :=
  c6_speed_limit_down_roundtrip env_fix adapter_fix permit_all (by decide)

/-- Claim C7: for each of the eleven guarded handlers, a denied
method-level permission check produces exactly the permission-denied
failure envelope with the request tag, and the handler returns with
the adapter state untouched - no engine call and no adapter mutation
has happened. -/
theorem c7_permission_denials :
    (∀ env st args tag p, Perms.allow_add p = false →
      add_torrent env st args tag p = (st, failure_envelope ("permission denied") tag)) ∧
    (∀ env st args tag p, Perms.allow_list p = false →
      get_torrent env st args tag p = (st, failure_envelope ("permission denied") tag)) ∧
    (∀ env st args tag p, p.allow_set_settings (-1) = false →
      set_torrent env st args tag p = (st, failure_envelope ("permission denied") tag)) ∧
    (∀ env st args tag p, Perms.allow_start p = false →
      start_torrent env st args tag p = (st, failure_envelope ("permission denied") tag)) ∧
    (∀ env st args tag p, Perms.allow_start p = false →
      start_torrent_now env st args tag p = (st, failure_envelope ("permission denied") tag)) ∧
    (∀ env st args tag p, Perms.allow_stop p = false →
      stop_torrent env st args tag p = (st, failure_envelope ("permission denied") tag)) ∧
    (∀ env st args tag p, Perms.allow_recheck p = false →
      verify_torrent env st args tag p = (st, failure_envelope ("permission denied") tag)) ∧
    (∀ env st args tag p, Perms.allow_start p = false →
      reannounce_torrent env st args tag p = (st, failure_envelope ("permission denied") tag)) ∧
    (∀ env st args tag p, Perms.allow_remove p = false →
      remove_torrent env st args tag p = (st, failure_envelope ("permission denied") tag)) ∧
    (∀ env st args tag p, Perms.allow_session_status p = false →
      session_stats env st args tag p = (st, failure_envelope ("permission denied") tag)) ∧
    (∀ env st args tag p, p.allow_get_settings (-1) = false →
      get_session env st args tag p = (st, failure_envelope ("permission denied") tag)) := by
  refine ⟨?_, ?_, ?_, ?_, ?_, ?_, ?_, ?_, ?_, ?_, ?_⟩ <;>
    intro env st args tag p h <;>
    simp [add_torrent, get_torrent, set_torrent, start_torrent, start_torrent_now,
      stop_torrent, verify_torrent, reannounce_torrent, remove_torrent,
      session_stats, get_session, h]

/-- Witness for C7: a denied torrent-add with tag 9 yields exactly the
permission-denied envelope and an unchanged adapter. -/
theorem c7_permission_denials_witness :
    add_torrent env_fix adapter_fix none 9 deny_all =
      (adapter_fix, failure_envelope ("permission denied") 9) :=
  c7_permission_denials.1 env_fix adapter_fix none 9 deny_all (by decide)

/-- Claim C8: a parsed top-level method name outside the handler table
leaves the response buffer empty (and the adapter untouched); only a
request without a parseable method string yields the missing-method
failure envelope with tag -1. -/
theorem c8_unknown_method (env : Env) (st : Adapter) (p : Perms) :
    (∀ top m, find_key top ("method") JType.str = some (Jv.str m) →
      handler_names.contains m = false →
      handle_json_rpc env st top p = some (st, "")) ∧
    (∀ top, find_key top ("method") JType.str = none →
      handle_json_rpc env st top p =
        some (st, failure_envelope ("missing method in request") (-1))) := by
  constructor
  · intro top m hm hcontains
    have hnotmem : m ∉ handler_names := by simpa using hcontains
    simp [handle_json_rpc, hm, hnotmem]
  · intro top hm
    simp [handle_json_rpc, hm]

/-- S1 request with an unknown method name. -/
def c8_top : Obj := [("method", Jv.str ("nonesuch")), ("tag", Jv.prim ("7"))]

/-- Witness for C8: the unknown method nonesuch produces no response
body at all. -/
theorem c8_unknown_method_witness :
    handle_json_rpc env_fix adapter_fix c8_top permit_all = some (adapter_fix, "") :=
  (c8_unknown_method env_fix adapter_fix permit_all).1 c8_top ("nonesuch")
    (by rfl) (by rfl)

/-- Appending on the right preserves beginning with the success
prefix. -/
theorem beginsWith_trans {s : String} (t : String) (h : beginsWith ok_start s) :
    beginsWith ok_start (s ++ t) := by
  obtain ⟨r, hr⟩ := h
  exact ⟨r ++ t, by rw [hr, String.append_assoc]⟩

/-- The empty success envelope begins with the success prefix. -/
theorem ok_empty_begins (tag : Int) : beginsWith ok_start (ok_empty tag) := by
  unfold ok_empty
  repeat apply beginsWith_trans
  exact ⟨", \"tag\": ", by decide⟩

/-- The session-get response begins with the success prefix. -/
theorem render_session_begins (tag : Int) (a : SessionGetArgs) :
    beginsWith ok_start (render_session tag a) := by
  unfold render_session
  repeat apply beginsWith_trans
  exact ⟨", \"tag\": ", by decide⟩

/-- Every add_torrent outcome is a success or failure envelope. -/
theorem add_torrent_shape (env : Env) (st : Adapter) (args : Option Obj) (tag : Int) (p : Perms) :
    beginsWith ok_start (add_torrent env st args tag p).2 ∨
    ∃ msg, (add_torrent env st args tag p).2 = failure_envelope msg tag := by
  unfold add_torrent
  split
  · exact Or.inr ⟨"permission denied", rfl⟩
  · dsimp only
    split
    · next msg _ => exact Or.inr ⟨msg, rfl⟩
    · next ps _ =>
      left
      show beginsWith ok_start _
      repeat apply beginsWith_trans
      exact ⟨", \"tag\": ", by decide⟩

/-- Every get_torrent outcome is a success or failure envelope. -/
theorem get_torrent_shape (env : Env) (st : Adapter) (args : Option Obj) (tag : Int) (p : Perms) :
    beginsWith ok_start (get_torrent env st args tag p).2 ∨
    ∃ msg, (get_torrent env st args tag p).2 = failure_envelope msg tag := by
  unfold get_torrent
  split
  · exact Or.inr ⟨"permission denied", rfl⟩
  · split
    · next items _ =>
      left
      show beginsWith ok_start _
      repeat apply beginsWith_trans
      exact ⟨", \"arguments\": \x7b \"torrents\": [", by decide⟩
    · exact Or.inr ⟨"missing \x27field\x27 argument", rfl⟩

/-- Every start_torrent outcome is a success or failure envelope. -/
theorem start_torrent_shape (env : Env) (st : Adapter) (args : Option Obj) (tag : Int) (p : Perms) :
    beginsWith ok_start (start_torrent env st args tag p).2 ∨
    ∃ msg, (start_torrent env st args tag p).2 = failure_envelope msg tag := by
  unfold start_torrent
  split
  · exact Or.inr ⟨"permission denied", rfl⟩
  · exact Or.inl (ok_empty_begins tag)

/-- Every start_torrent_now outcome is a success or failure envelope. -/
theorem start_torrent_now_shape (env : Env) (st : Adapter) (args : Option Obj) (tag : Int) (p : Perms) :
    beginsWith ok_start (start_torrent_now env st args tag p).2 ∨
    ∃ msg, (start_torrent_now env st args tag p).2 = failure_envelope msg tag := by
  unfold start_torrent_now
  split
  · exact Or.inr ⟨"permission denied", rfl⟩
  · exact Or.inl (ok_empty_begins tag)

/-- Every stop_torrent outcome is a success or failure envelope. -/
theorem stop_torrent_shape (env : Env) (st : Adapter) (args : Option Obj) (tag : Int) (p : Perms) :
    beginsWith ok_start (stop_torrent env st args tag p).2 ∨
    ∃ msg, (stop_torrent env st args tag p).2 = failure_envelope msg tag := by
  unfold stop_torrent
  split
  · exact Or.inr ⟨"permission denied", rfl⟩
  · exact Or.inl (ok_empty_begins tag)

/-- Every verify_torrent outcome is a success or failure envelope. -/
theorem verify_torrent_shape (env : Env) (st : Adapter) (args : Option Obj) (tag : Int) (p : Perms) :
    beginsWith ok_start (verify_torrent env st args tag p).2 ∨
    ∃ msg, (verify_torrent env st args tag p).2 = failure_envelope msg tag := by
  unfold verify_torrent
  split
  · exact Or.inr ⟨"permission denied", rfl⟩
  · exact Or.inl (ok_empty_begins tag)

/-- Every reannounce_torrent outcome is a success or failure envelope. -/
theorem reannounce_torrent_shape (env : Env) (st : Adapter) (args : Option Obj) (tag : Int) (p : Perms) :
    beginsWith ok_start (reannounce_torrent env st args tag p).2 ∨
    ∃ msg, (reannounce_torrent env st args tag p).2 = failure_envelope msg tag := by
  unfold reannounce_torrent
  split
  · exact Or.inr ⟨"permission denied", rfl⟩
  · exact Or.inl (ok_empty_begins tag)

/-- Every remove_torrent outcome is a success or failure envelope. -/
theorem remove_torrent_shape (env : Env) (st : Adapter) (args : Option Obj) (tag : Int) (p : Perms) :
    beginsWith ok_start (remove_torrent env st args tag p).2 ∨
    ∃ msg, (remove_torrent env st args tag p).2 = failure_envelope msg tag := by
  unfold remove_torrent
  split
  · exact Or.inr ⟨"permission denied", rfl⟩
  · exact Or.inl (ok_empty_begins tag)

/-- Every session_stats outcome is a success or failure envelope. -/
theorem session_stats_shape (env : Env) (st : Adapter) (args : Option Obj) (tag : Int) (p : Perms) :
    beginsWith ok_start (session_stats env st args tag p).2 ∨
    ∃ msg, (session_stats env st args tag p).2 = failure_envelope msg tag := by
  unfold session_stats
  split
  · exact Or.inr ⟨"permission denied", rfl⟩
  · left
    show beginsWith ok_start _
    repeat apply beginsWith_trans
    exact ⟨", \"tag\": ", by decide⟩

/-- Every get_session outcome is a success or failure envelope. -/
theorem get_session_shape (env : Env) (st : Adapter) (args : Option Obj) (tag : Int) (p : Perms) :
    beginsWith ok_start (get_session env st args tag p).2 ∨
    ∃ msg, (get_session env st args tag p).2 = failure_envelope msg tag := by
  unfold get_session
  split
  · exact Or.inr ⟨"permission denied", rfl⟩
  · exact Or.inl (render_session_begins tag (get_session_args env st))

/-- Table lookup of torrent-add. -/
theorem dispatch_add (env : Env) (st : Adapter) (args : Option Obj) (tag : Int) (p : Perms) :
    dispatch ("torrent-add") env st args tag p = some (add_torrent env st args tag p) := by
  simp [dispatch]

/-- Table lookup of torrent-get. -/
theorem dispatch_get (env : Env) (st : Adapter) (args : Option Obj) (tag : Int) (p : Perms) :
    dispatch ("torrent-get") env st args tag p = some (get_torrent env st args tag p) := by
  simp [dispatch]

/-- Table lookup of torrent-set. -/
theorem dispatch_tset (env : Env) (st : Adapter) (args : Option Obj) (tag : Int) (p : Perms) :
    dispatch ("torrent-set") env st args tag p = some (set_torrent env st args tag p) := by
  simp [dispatch]

/-- Table lookup of torrent-start. -/
theorem dispatch_start (env : Env) (st : Adapter) (args : Option Obj) (tag : Int) (p : Perms) :
    dispatch ("torrent-start") env st args tag p = some (start_torrent env st args tag p) := by
  simp [dispatch]

/-- Table lookup of torrent-start-now. -/
theorem dispatch_startnow (env : Env) (st : Adapter) (args : Option Obj) (tag : Int) (p : Perms) :
    dispatch ("torrent-start-now") env st args tag p = some (start_torrent_now env st args tag p) := by
  simp [dispatch]

/-- Table lookup of torrent-stop. -/
theorem dispatch_stop (env : Env) (st : Adapter) (args : Option Obj) (tag : Int) (p : Perms) :
    dispatch ("torrent-stop") env st args tag p = some (stop_torrent env st args tag p) := by
  simp [dispatch]

/-- Table lookup of torrent-verify. -/
theorem dispatch_verify (env : Env) (st : Adapter) (args : Option Obj) (tag : Int) (p : Perms) :
    dispatch ("torrent-verify") env st args tag p = some (verify_torrent env st args tag p) := by
  simp [dispatch]

/-- Table lookup of torrent-reannounce. -/
theorem dispatch_reannounce (env : Env) (st : Adapter) (args : Option Obj) (tag : Int) (p : Perms) :
    dispatch ("torrent-reannounce") env st args tag p = some (reannounce_torrent env st args tag p) := by
  simp [dispatch]

/-- Table lookup of torrent-remove. -/
theorem dispatch_remove (env : Env) (st : Adapter) (args : Option Obj) (tag : Int) (p : Perms) :
    dispatch ("torrent-remove") env st args tag p = some (remove_torrent env st args tag p) := by
  simp [dispatch]

/-- Table lookup of session-stats. -/
theorem dispatch_stats (env : Env) (st : Adapter) (args : Option Obj) (tag : Int) (p : Perms) :
    dispatch ("session-stats") env st args tag p = some (session_stats env st args tag p) := by
  simp [dispatch]

/-- Table lookup of session-get. -/
theorem dispatch_sget (env : Env) (st : Adapter) (args : Option Obj) (tag : Int) (p : Perms) :
    dispatch ("session-get") env st args tag p = some (get_session env st args tag p) := by
  simp [dispatch]

/-- Table lookup of session-set with a present arguments object. -/
theorem dispatch_sset_some (env : Env) (st : Adapter) (o : Obj) (tag : Int) (p : Perms) :
    dispatch ("session-set") env st (some o) tag p = some (set_session env st o tag p) := by
  simp [dispatch]

/-- Table lookup of session-set without an arguments object: the
undefined outcome of the NULL dereference at line 1055. -/
theorem dispatch_sset_none (env : Env) (st : Adapter) (tag : Int) (p : Perms) :
    dispatch ("session-set") env st none tag p = none := by
  simp [dispatch]

/-- A value returned by find_key has the requested token type. -/
theorem find_key_jtype (members : Obj) (key : String) (ty : JType) (v : Jv)
    (h : find_key members key ty = some v) : jtype v = ty := by
  unfold find_key at h
  cases hf : members.find? (fun kv => kv.1 = key) with
  | none => rw [hf] at h; exact absurd h (by simp)
  | some kv =>
    rw [hf] at h
    dsimp only at h
    split at h
    · next hty =>
      injection h with h2
      rw [← h2]
      exact hty
    · exact absurd h (by simp)

/-- Weakening of a two-way envelope shape into the three-way
disjunction of the amended claim C1. -/
theorem shape_to_c1 {s : String} {tag : Int} {extra : Prop}
    (h : beginsWith ok_start s ∨ ∃ msg, s = failure_envelope msg tag) :
    beginsWith ok_start s ∨ (∃ msg, s = failure_envelope msg tag) ∨ (s = "" ∧ extra) :=
  h.elim Or.inl (fun hx => Or.inr (Or.inl hx))

/-- Claim C1 as amended: for every request whose method string parses
and matches the handler table, either the program produces a defined
response buffer that begins with the success prefix, or equals a
failure envelope carrying the request tag, or is empty - the empty
case arising exactly for session-set requests carrying an arguments
object and for torrent-set requests whose permission check passes - or
the request is a session-set without an arguments object, on which the
program has no defined response at all (it dereferences the NULL args
pointer at line 1055).  The original claim also required torrent-set
and session-set to produce a non-empty envelope, which the code does
not do. -/
theorem c1_envelope_amended (env : Env) (st : Adapter) (p : Perms) (top : Obj) (m : String)
    (hm : find_key top ("method") JType.str = some (Jv.str m))
    (hin : handler_names.contains m = true) :
    (∃ r, handle_json_rpc env st top p = some r ∧
      (beginsWith ok_start r.2 ∨
       (∃ msg, r.2 = failure_envelope msg (find_int (some top) ("tag"))) ∨
       (r.2 = "" ∧ (m = "session-set" ∨
         (m = "torrent-set" ∧ p.allow_set_settings (-1) = true))))) ∨
    (handle_json_rpc env st top p = none ∧ m = "session-set" ∧
      find_key top ("arguments") JType.obj = none) := by
  have hmem : m ∈ handler_names := by simpa using hin
  simp only [handle_json_rpc, hm, hin, if_true]
  simp [handler_names] at hmem
  rcases hmem with rfl | rfl | rfl | rfl | rfl | rfl | rfl | rfl | rfl | rfl | rfl | rfl
  · rw [dispatch_add]
    exact Or.inl ⟨_, rfl, shape_to_c1 (add_torrent_shape env st _ _ p)⟩
  · rw [dispatch_get]
    exact Or.inl ⟨_, rfl, shape_to_c1 (get_torrent_shape env st _ _ p)⟩
  · rw [dispatch_tset]
    cases hb : p.allow_set_settings (-1) with
    | false =>
      exact Or.inl ⟨_, rfl,
        Or.inr (Or.inl ⟨"permission denied", by simp [set_torrent, hb]⟩)⟩
    | true =>
      exact Or.inl ⟨_, rfl,
        Or.inr (Or.inr ⟨by simp [set_torrent, hb], Or.inr ⟨rfl, rfl⟩⟩)⟩
  · rw [dispatch_start]
    exact Or.inl ⟨_, rfl, shape_to_c1 (start_torrent_shape env st _ _ p)⟩
  · rw [dispatch_startnow]
    exact Or.inl ⟨_, rfl, shape_to_c1 (start_torrent_now_shape env st _ _ p)⟩
  · rw [dispatch_stop]
    exact Or.inl ⟨_, rfl, shape_to_c1 (stop_torrent_shape env st _ _ p)⟩
  · rw [dispatch_verify]
    exact Or.inl ⟨_, rfl, shape_to_c1 (verify_torrent_shape env st _ _ p)⟩
  · rw [dispatch_reannounce]
    exact Or.inl ⟨_, rfl, shape_to_c1 (reannounce_torrent_shape env st _ _ p)⟩
  · rw [dispatch_remove]
    exact Or.inl ⟨_, rfl, shape_to_c1 (remove_torrent_shape env st _ _ p)⟩
  · rw [dispatch_stats]
    exact Or.inl ⟨_, rfl, shape_to_c1 (session_stats_shape env st _ _ p)⟩
  · rw [dispatch_sget]
    exact Or.inl ⟨_, rfl, shape_to_c1 (get_session_shape env st _ _ p)⟩
  · cases hargs : find_key top ("arguments") JType.obj with
    | none =>
      simp only [hargs]
      rw [dispatch_sset_none]
      exact Or.inr ⟨rfl, trivial, trivial⟩
    | some v =>
      have hty := find_key_jtype top ("arguments") JType.obj v hargs
      cases v with
      | obj o =>
        simp only [hargs]
        rw [dispatch_sset_some]
        exact Or.inl ⟨_, rfl, Or.inr (Or.inr ⟨rfl, Or.inl trivial⟩)⟩
      | str s => exact absurd hty (by simp [jtype])
      | prim s => exact absurd hty (by simp [jtype])
      | arr xs => exact absurd hty (by simp [jtype])

/-- Top-level object of a torrent-set request with granted
permissions. -/
def c1_top : Obj :=
  [("method", Jv.str ("torrent-set")),
   ("arguments", Jv.obj [("ids", Jv.arr [Jv.prim ("1")]),
     ("uploadLimit", Jv.prim ("250")), ("uploadLimited", Jv.prim ("true"))]),
   ("tag", Jv.prim ("4"))]

/-- Counterexample to claim C1 as stated: a torrent-set request that
reaches its handler with the permission granted runs to completion but
produces an empty response buffer - not the non-empty success or
failure envelope the claim requires for torrent-set. -/
theorem c1_counterexample :
    Option.map Prod.snd (handle_json_rpc env_fix adapter_fix c1_top permit_all) =
      some "" := by rfl

/-- Top-level object of a torrent-start request. -/
def c1_wit_top : Obj :=
  [("method", Jv.str ("torrent-start")), ("tag", Jv.prim ("3"))]

/-- Witness for the amended claim C1 at a concrete torrent-start
request. -/
theorem c1_envelope_amended_witness :
    (∃ r, handle_json_rpc env_fix adapter_fix c1_wit_top permit_all = some r ∧
      (beginsWith ok_start r.2 ∨
       (∃ msg, r.2 = failure_envelope msg (find_int (some c1_wit_top) ("tag"))) ∨
       (r.2 = "" ∧ ("torrent-start" = "session-set" ∨
         ("torrent-start" = "torrent-set" ∧ permit_all.allow_set_settings (-1) = true))))) ∨
    (handle_json_rpc env_fix adapter_fix c1_wit_top permit_all = none ∧
      "torrent-start" = "session-set" ∧
      find_key c1_wit_top ("arguments") JType.obj = none) :=
  c1_envelope_amended env_fix adapter_fix permit_all c1_wit_top ("torrent-start")
    (by rfl) (by rfl)
